import Mathlib

/-!
Shallow embedding of `src/bedrock_inference.py` (PDF → Bedrock inference
pipeline).  Python exceptions are modelled as values of `PyExn` carrying the
exception class name (`type(e).__name__`) and message (`str(e)`); a raising
call is an `Except PyExn` value.  The external collaborators (S3 get/put,
pdf2image rendering + PNG/base64 encoding, Bedrock invoke + JSON decode) are
modelled by an environment `Env` giving the outcome each external call would
produce in this run.  A `Trace` records which external calls were actually
issued, so that claims about "the put operation is performed" or "no inference
call is issued" are statable.
-/

namespace BedrockUploader

/-- A Python exception value: class name and message. -/
structure PyExn where
  ty : String
  msg : String
deriving DecidableEq, Repr

/-- JSON-like Python values (dicts keep insertion order, as in CPython). -/
inductive JValue where
  | null : JValue
  | str : String → JValue
  | nat : Nat → JValue
  | arr : List JValue → JValue
  | obj : List (String × JValue) → JValue
deriving Repr

/-- Field lookup in a dict value (`None` when absent or not a dict). -/
def JValue.lookup (j : JValue) (k : String) : Option JValue :=
  match j with
  | .obj fields => List.lookup k fields
  | _ => none

/-- `str(x)` view of an optional string attribute: Python `None` ↦ JSON null. -/
def optStr : Option String → JValue
  | none => JValue.null
  | some s => JValue.str s

/-- Python truthiness of the `Optional[str]` attributes used in the guards:
`None` and `""` are falsy. -/
def truthy : Option String → Bool
  | none => false
  | some s => !(s == "")

/-- Outcomes the external world would give this run: S3 `get_object` +
`Body.read()`, the pdf2image/PNG/base64 rendering loop, Bedrock
`invoke_model` + body decode + `json.loads`, and S3 `put_object`.  A
`ClientError` is an exception whose `ty` is `"ClientError"`. -/
structure Env where
  getRes : Except PyExn (List Nat)
  renderRes : Except PyExn (List String)
  invokeRes : Except PyExn JValue
  putRes : Except PyExn Unit
  startTime : String
  endTimeTry : String
  endTimeExcept : String

/-- Which external calls were issued during the run. -/
structure Trace where
  getCalled : Bool
  invokeCalled : Bool
  putCalled : Bool
deriving DecidableEq, Repr

/-- `PDFProcessor.read_pdf_from_s3`: guard on bucket/key, call `get_object`
(wrapping only `ClientError` into `PDFProcessingError`), return the bytes.
The boolean records whether `get_object` was reached. -/
def read_pdf_from_s3 (input_bucket input_key : Option String)
    (getRes : Except PyExn (List Nat)) : Except PyExn (List Nat) × Bool :=
  if !(truthy input_bucket) || !(truthy input_key) then
    (.error ⟨"PDFProcessingError", "S3 bucket or input key is not set."⟩, false)
  else
    match getRes with
    | .ok d => (.ok d, true)
    | .error e =>
      if e.ty == "ClientError" then
        (.error ⟨"PDFProcessingError", "Failed to read PDF from S3: " ++ e.msg⟩, true)
      else
        (.error e, true)

/-- `PDFProcessor.pdf_to_base64_images`: the conversion/encoding loop is
external (`renderRes`); any exception it raises is wrapped into
`PDFProcessingError`. -/
def pdf_to_base64_images (renderRes : Except PyExn (List String)) :
    Except PyExn (List String) :=
  match renderRes with
  | .ok imgs => .ok imgs
  | .error e =>
    .error ⟨"PDFProcessingError", "Failed to convert PDF to images: " ++ e.msg⟩

/-- The fixed instruction text of the request. -/
def instructionText : String := "Analyze this document and summarize the content."

/-- One attached page image, tagged as base64-encoded `image/png`. -/
def imageBlock (img_str : String) : JValue :=
  .obj [("type", .str "image"),
        ("source", .obj [("type", .str "base64"),
                         ("media_type", .str "image/png"),
                         ("data", .str img_str)])]

/-- `PDFProcessor.prepare_bedrock_payload`: empty image list raises
`ValueError`, re-raised as `PDFProcessingError`; otherwise one user message
whose content is the instruction followed by all page images in order,
wrapped in the fixed anthropic_version / max_tokens envelope. -/
def prepare_bedrock_payload (pdf_base64_images : List String) :
    Except PyExn JValue :=
  if pdf_base64_images.isEmpty then
    .error ⟨"PDFProcessingError",
            "Failed to prepare PDF payload: No valid Base64 images found in PDF"⟩
  else
    .ok (.obj
      [("anthropic_version", .str "bedrock-2023-05-31"),
       ("max_tokens", .nat 2048),
       ("messages", .arr
         [.obj [("role", .str "user"),
                ("content", .arr
                  (JValue.obj [("type", .str "text"), ("text", .str instructionText)]
                    :: pdf_base64_images.map imageBlock))]])])

/-- The characters of a string after its last `/`
(Python `os.path.basename` on POSIX: `p[p.rfind(sep) + 1:]`). -/
def basename (p : String) : String :=
  String.mk ((p.data.reverse.takeWhile fun c => !(c == '/')).reverse)

/-- Index of the last `.` in a character list, if any. -/
def lastDotPos (cs : List Char) : Option Nat :=
  ((List.range cs.length).filter fun i => cs.getD i ' ' == '.').getLast?

/-- Root part of Python `os.path.splitext` applied to a basename: split at the
last dot unless every character before it is itself a dot (so `.bashrc` keeps
its dot). -/
def splitextRoot (b : String) : String :=
  let cs := b.data
  match lastDotPos cs with
  | none => b
  | some i =>
    if (cs.take i).all fun c => c == '.' then b
    else String.mk (cs.take i)

/-- The output key computed in `write_results_to_s3`:
`f"pdf_results/{uuid}/{os.path.splitext(os.path.basename(input_key))[0]}_results.json"`. -/
def output_key (uuid input_key : String) : String :=
  "pdf_results/" ++ uuid ++ "/" ++ splitextRoot (basename input_key) ++ "_results.json"

/-- `PDFProcessor.write_results_to_s3`: guard on bucket/key/uuid, then
`put_object` at the deterministic output key, wrapping only `ClientError`
into `PDFProcessingError`.  The boolean records whether `put_object` was
reached. -/
def write_results_to_s3 (input_bucket input_key uuid : Option String)
    (putRes : Except PyExn Unit) (results : JValue) : Except PyExn Unit × Bool :=
  if !(truthy input_bucket) || !(truthy input_key) || !(truthy uuid) then
    (.error ⟨"PDFProcessingError", "S3 bucket, input key, or UUID is not set."⟩, false)
  else
    match results, putRes with
    | _, .ok _ => (.ok (), true)
    | _, .error e =>
      if e.ty == "ClientError" then
        (.error ⟨"PDFProcessingError", "S3 write error: " ++ e.msg⟩, true)
      else
        (.error e, true)

/-- The success results dict built in `process` before writing. -/
def successEnvelope (input_key : Option String) (startT endT : String)
    (inference_results : JValue) : JValue :=
  .obj [("pdf_key", optStr input_key),
        ("processing_start_time", .str startT),
        ("processing_end_time", .str endT),
        ("status", .str "SUCCESS"),
        ("analysis_results", inference_results)]

/-- The error_response dict built in `process`'s `except` block. -/
def errorEnvelope (input_key : Option String) (startT endT : String)
    (e : PyExn) : JValue :=
  .obj [("pdf_key", optStr input_key),
        ("processing_start_time", .str startT),
        ("processing_end_time", .str endT),
        ("status", .str "FAILED"),
        ("error", .str e.msg),
        ("error_type", .str e.ty)]

/-- The body of `process`'s `try` block: fetch, empty-payload check,
rasterize, build payload, invoke, build results, write.  Returns the raised
exception or the success results, together with the trace of external calls. -/
def tryBody (input_bucket input_key uuid : Option String) (env : Env) :
    Except PyExn JValue × Trace :=
  match read_pdf_from_s3 input_bucket input_key env.getRes with
  | (.error e, g) => (.error e, ⟨g, false, false⟩)
  | (.ok pdf_data, g) =>
    if pdf_data.isEmpty then
      (.error ⟨"PDFProcessingError", "No PDF data received from S3"⟩, ⟨g, false, false⟩)
    else
      match pdf_to_base64_images env.renderRes with
      | .error e => (.error e, ⟨g, false, false⟩)
      | .ok pdf_base64_images =>
        match prepare_bedrock_payload pdf_base64_images with
        | .error e => (.error e, ⟨g, false, false⟩)
        | .ok _bedrock_payload =>
          match env.invokeRes with
          | .error e => (.error e, ⟨g, true, false⟩)
          | .ok inference_results =>
            let results :=
              successEnvelope input_key env.startTime env.endTimeTry inference_results
            match write_results_to_s3 input_bucket input_key uuid env.putRes results with
            | (.error e, p) => (.error e, ⟨g, true, p⟩)
            | (.ok _, p) => (.ok results, ⟨g, true, p⟩)

/-- `PDFProcessor.process`: parameter guard (raises, uncaught, when a
parameter is missing), then the `try` block; `except Exception` turns any
raised exception into the FAILED error_response, which is returned — the
`except` block performs no write. -/
def process (input_bucket input_key uuid : Option String) (env : Env) :
    Except PyExn JValue × Trace :=
  if truthy input_bucket && truthy input_key && truthy uuid then
    match tryBody input_bucket input_key uuid env with
    | (.ok results, tr) => (.ok results, tr)
    | (.error e, tr) =>
      (.ok (errorEnvelope input_key env.startTime env.endTimeExcept e), tr)
  else
    (.error ⟨"PDFProcessingError",
             "Missing required parameters: input_bucket, input_key, or uuid."⟩,
     ⟨false, false, false⟩)

/-! ### Concrete run fixtures -/

/-- The bucket used in the example usage block. -/
def cBucket : Option String := some "your-input-bucket"

/-- The input key used in the example usage block. -/
def cKey : Option String := some "documents/sample.pdf"

/-- The tracking uuid used in the example usage block. -/
def cUuid : Option String := some "123456"

/-- A run whose S3 `get_object` raises a `ClientError`. -/
def envFetchFail : Env :=
  ⟨.error ⟨"ClientError", "An error occurred (NoSuchKey)"⟩, .ok ["img"],
   .ok .null, .ok (), "20260101_000000", "20260101_000001", "20260101_000002"⟩

/-- A run whose S3 `get_object` returns empty bytes. -/
def envEmptyFetch : Env :=
  ⟨.ok [], .ok ["img"], .ok .null, .ok (), "t0", "t1", "t2"⟩

/-- A run whose rasterizer yields zero page images. -/
def envZeroPages : Env :=
  ⟨.ok [37], .ok [], .ok .null, .ok (), "t0", "t1", "t2"⟩

/-- A run where everything succeeds except the final S3 `put_object`. -/
def envWriteFail : Env :=
  ⟨.ok [37], .ok ["img"], .ok (.obj [("content", .str "summary")]),
   .error ⟨"ClientError", "AccessDenied"⟩, "t0", "t1", "t2"⟩

/-- A fully successful run. -/
def envAllOk : Env :=
  ⟨.ok [37, 38], .ok ["imgA", "imgB"], .ok (.obj [("content", .str "summary")]),
   .ok (), "t0", "t1", "t2"⟩

/-! ### Helper lemmas -/

theorem string_append_data (a b : String) : (a ++ b).data = a.data ++ b.data := rfl

theorem append_left_ne_empty (a b : String) (h : a ≠ "") : a ++ b ≠ "" := by
  intro hab
  apply h
  have hdata : (a ++ b).data = [] := by rw [hab]
  rw [string_append_data] at hdata
  exact String.ext (List.append_eq_nil.mp hdata).1

/-! ### Claims about the output location -/

/-- C4: The output location is the pure function
`pdf_results/<uuid>/<basename of key, extension stripped>_results.json` of the
tracking id and the input key: identical `(uuid, key)` pairs always give the
same path, and for a fixed key, two paths agree exactly when the uuids do. -/
theorem output_key_deterministic_uuid_disjoint (u1 u2 k : String) :
    output_key u1 k =
      "pdf_results/" ++ u1 ++ "/" ++ splitextRoot (basename k) ++ "_results.json" ∧
    (output_key u1 k = output_key u2 k ↔ u1 = u2) := by
  refine ⟨rfl, ?_, fun h => by rw [h]⟩
  intro h
  have h2 : (output_key u1 k).data = (output_key u2 k).data := by rw [h]
  unfold output_key at h2
  simp only [string_append_data, List.append_assoc] at h2
  exact String.ext (List.append_cancel_right (List.append_cancel_left h2))

/-- C10: The output path depends on the input key only through its basename
with the extension stripped, so two distinct keys with the same stem and the
same tracking id collide on the same output path. -/
theorem output_key_depends_only_on_stem (u k1 k2 : String)
    (h : splitextRoot (basename k1) = splitextRoot (basename k2)) :
    output_key u k1 = output_key u k2 := by
  unfold output_key
  rw [h]

/-- C10 witness: `documents/sample.pdf` and `archive/sample.txt` are distinct
keys that collide under tracking id `123456`. -/
theorem output_key_depends_only_on_stem_witness :
    ("documents/sample.pdf" : String) ≠ "archive/sample.txt" ∧
    output_key "123456" "documents/sample.pdf" =
      output_key "123456" "archive/sample.txt" :=
  ⟨by decide,
   output_key_depends_only_on_stem "123456" "documents/sample.pdf" "archive/sample.txt" rfl⟩

/-! ### Claims about the orchestrator -/

/-- C9: Whenever bucket, key, and uuid are all set (truthy), `process` never
propagates an exception: whatever the external outcomes, it returns a result
dictionary (`.ok`), the broad `except Exception` having caught every failure. -/
theorem process_never_propagates (b k u : Option String) (env : Env)
    (hb : truthy b = true) (hk : truthy k = true) (hu : truthy u = true) :
    ∃ j, (process b k u env).fst = .ok j := by
  unfold process
  rw [hb, hk, hu]
  rcases htr : tryBody b k u env with ⟨res, tr⟩
  cases res with
  | ok results => exact ⟨results, rfl⟩
  | error e => exact ⟨errorEnvelope k env.startTime env.endTimeExcept e, rfl⟩

/-- C9 witness: a run where the final write fails still returns a dictionary. -/
theorem process_never_propagates_witness :
    ∃ j, (process cBucket cKey cUuid envWriteFail).fst = .ok j :=
  process_never_propagates cBucket cKey cUuid envWriteFail rfl rfl rfl

/-- C8: When every stage succeeds, the run returns (after writing) the
envelope with `status=SUCCESS`, `analysis_results` verbatim the decoded model
response, `pdf_key` the input key, and no `error` or `error_type` field. -/
theorem process_success_envelope (b k u : Option String) (env : Env)
    (d : List Nat) (imgs : List String) (r : JValue)
    (hb : truthy b = true) (hk : truthy k = true) (hu : truthy u = true)
    (hget : env.getRes = .ok d) (hd : d ≠ [])
    (hrender : env.renderRes = .ok imgs) (himgs : imgs ≠ [])
    (hinv : env.invokeRes = .ok r) (hput : env.putRes = .ok ()) :
    process b k u env =
      (.ok (successEnvelope k env.startTime env.endTimeTry r), ⟨true, true, true⟩) ∧
    (successEnvelope k env.startTime env.endTimeTry r).lookup "status" = some (.str "SUCCESS") ∧
    (successEnvelope k env.startTime env.endTimeTry r).lookup "analysis_results" = some r ∧
    (successEnvelope k env.startTime env.endTimeTry r).lookup "error" = none ∧
    (successEnvelope k env.startTime env.endTimeTry r).lookup "error_type" = none ∧
    (successEnvelope k env.startTime env.endTimeTry r).lookup "pdf_key" = some (optStr k) := by
  refine ⟨?_, rfl, rfl, rfl, rfl, rfl⟩
  unfold process tryBody read_pdf_from_s3 pdf_to_base64_images prepare_bedrock_payload
    write_results_to_s3
  rw [hb, hk, hu, hget, hrender, hinv, hput]
  rcases d with _ | ⟨x, xs⟩
  · exact absurd rfl hd
  rcases imgs with _ | ⟨y, ys⟩
  · exact absurd rfl himgs
  simp

/-- C8 witness: the fully successful fixture run. -/
theorem process_success_envelope_witness :
    process cBucket cKey cUuid envAllOk =
      (.ok (successEnvelope cKey "t0" "t1" (.obj [("content", .str "summary")])),
       ⟨true, true, true⟩) ∧
    (successEnvelope cKey "t0" "t1" (.obj [("content", .str "summary")])).lookup "status"
      = some (.str "SUCCESS") ∧
    (successEnvelope cKey "t0" "t1" (.obj [("content", .str "summary")])).lookup "analysis_results"
      = some (.obj [("content", .str "summary")]) ∧
    (successEnvelope cKey "t0" "t1" (.obj [("content", .str "summary")])).lookup "error" = none ∧
    (successEnvelope cKey "t0" "t1" (.obj [("content", .str "summary")])).lookup "error_type" = none ∧
    (successEnvelope cKey "t0" "t1" (.obj [("content", .str "summary")])).lookup "pdf_key"
      = some (optStr cKey) :=
  process_success_envelope cBucket cKey cUuid envAllOk [37, 38] ["imgA", "imgB"]
    (.obj [("content", .str "summary")]) rfl rfl rfl rfl (by decide) rfl (by decide) rfl rfl

/-- C6 (amended): When the storage fetch returns an empty payload, the run
fails before rasterization with the `PDFProcessingError` message
`No PDF data received from S3`; the FAILED envelope is returned to the caller
but no write is performed (`putCalled = false`). -/
theorem empty_fetch_fails_envelope_not_written (b k u : Option String) (env : Env)
    (hb : truthy b = true) (hk : truthy k = true) (hu : truthy u = true)
    (hget : env.getRes = .ok []) :
    process b k u env =
      (.ok (errorEnvelope k env.startTime env.endTimeExcept
        ⟨"PDFProcessingError", "No PDF data received from S3"⟩),
       ⟨true, false, false⟩) := by
  unfold process tryBody read_pdf_from_s3
  rw [hb, hk, hu, hget]
  simp

/-- C6 witness: the empty-fetch fixture run. -/
theorem empty_fetch_fails_envelope_not_written_witness :
    process cBucket cKey cUuid envEmptyFetch =
      (.ok (errorEnvelope cKey "t0" "t2"
        ⟨"PDFProcessingError", "No PDF data received from S3"⟩),
       ⟨true, false, false⟩) :=
  empty_fetch_fails_envelope_not_written cBucket cKey cUuid envEmptyFetch rfl rfl rfl rfl

/-- C6 counterexample: on an empty fetch the FAILED envelope is **not**
written to the output path — `put_object` is never called — and its
`error_type` is the generic `PDFProcessingError`, not a fetch-specific kind. -/
theorem empty_fetch_not_written_cex :
    (process cBucket cKey cUuid envEmptyFetch).snd.putCalled = false ∧
    (process cBucket cKey cUuid envEmptyFetch).fst =
      .ok (errorEnvelope cKey "t0" "t2"
        ⟨"PDFProcessingError", "No PDF data received from S3"⟩) ∧
    (errorEnvelope cKey "t0" "t2"
        ⟨"PDFProcessingError", "No PDF data received from S3"⟩).lookup "error_type"
      = some (.str "PDFProcessingError") :=
  ⟨rfl, rfl, rfl⟩

/-- C5: On an empty sequence of page images the request builder raises the
build-stage error (`PDFProcessingError`, the code's single exception class,
with the build-stage message), and in such a run `invoke_model` is never
called: the run short-circuits to the FAILED envelope. -/
theorem empty_pages_build_fails_no_invoke (b k u : Option String) (env : Env)
    (d : List Nat)
    (hb : truthy b = true) (hk : truthy k = true) (hu : truthy u = true)
    (hget : env.getRes = .ok d) (hd : d ≠ [])
    (hrender : env.renderRes = .ok []) :
    prepare_bedrock_payload [] = .error ⟨"PDFProcessingError",
      "Failed to prepare PDF payload: No valid Base64 images found in PDF"⟩ ∧
    (process b k u env).snd.invokeCalled = false ∧
    (process b k u env).fst =
      .ok (errorEnvelope k env.startTime env.endTimeExcept
        ⟨"PDFProcessingError",
         "Failed to prepare PDF payload: No valid Base64 images found in PDF"⟩) := by
  have hrun : process b k u env =
      (.ok (errorEnvelope k env.startTime env.endTimeExcept
        ⟨"PDFProcessingError",
         "Failed to prepare PDF payload: No valid Base64 images found in PDF"⟩),
       ⟨true, false, false⟩) := by
    unfold process tryBody read_pdf_from_s3 pdf_to_base64_images prepare_bedrock_payload
    rw [hb, hk, hu, hget, hrender]
    rcases d with _ | ⟨x, xs⟩
    · exact absurd rfl hd
    simp
  exact ⟨rfl, by rw [hrun], by rw [hrun]⟩

/-- C5 witness: the zero-page fixture run. -/
theorem empty_pages_build_fails_no_invoke_witness :
    prepare_bedrock_payload [] = .error ⟨"PDFProcessingError",
      "Failed to prepare PDF payload: No valid Base64 images found in PDF"⟩ ∧
    (process cBucket cKey cUuid envZeroPages).snd.invokeCalled = false ∧
    (process cBucket cKey cUuid envZeroPages).fst =
      .ok (errorEnvelope cKey "t0" "t2"
        ⟨"PDFProcessingError",
         "Failed to prepare PDF payload: No valid Base64 images found in PDF"⟩) :=
  empty_pages_build_fails_no_invoke cBucket cKey cUuid envZeroPages [37]
    rfl rfl rfl rfl (by decide) rfl

/-- C7: On any non-empty image list the built request is exactly the fixed
envelope: protocol version `bedrock-2023-05-31`, `max_tokens` 2048, and one
user message whose content is the fixed instruction text segment followed by
the page images in their original order, each tagged base64 / `image/png`. -/
theorem prepare_payload_structure (imgs : List String) (h : imgs ≠ []) :
    prepare_bedrock_payload imgs = .ok (.obj
      [("anthropic_version", .str "bedrock-2023-05-31"),
       ("max_tokens", .nat 2048),
       ("messages", .arr
         [.obj [("role", .str "user"),
                ("content", .arr
                  (JValue.obj [("type", .str "text"), ("text", .str instructionText)]
                    :: imgs.map imageBlock))]])]) := by
  unfold prepare_bedrock_payload
  rcases imgs with _ | ⟨y, ys⟩
  · exact absurd rfl h
  simp

/-- C7 witness: the two-image request. -/
theorem prepare_payload_structure_witness :
    prepare_bedrock_payload ["imgA", "imgB"] = .ok (.obj
      [("anthropic_version", .str "bedrock-2023-05-31"),
       ("max_tokens", .nat 2048),
       ("messages", .arr
         [.obj [("role", .str "user"),
                ("content", .arr
                  (JValue.obj [("type", .str "text"), ("text", .str instructionText)]
                    :: ["imgA", "imgB"].map imageBlock))]])]) :=
  prepare_payload_structure ["imgA", "imgB"] (by decide)

/-- C1 (amended): Every error raised before the write step — fetch,
empty-payload check, rasterization, request building, or invocation — is
caught and converted into the FAILED envelope carrying its message and kind,
and that envelope is returned to the caller; it is **not** persisted: the
Result Writer's put is never reached (`putCalled = false`). -/
theorem preWrite_failure_envelope_not_persisted (b k u : Option String)
    (env : Env) (e : PyExn) (g i : Bool)
    (hb : truthy b = true) (hk : truthy k = true) (hu : truthy u = true)
    (htr : tryBody b k u env = (.error e, ⟨g, i, false⟩)) :
    process b k u env =
      (.ok (errorEnvelope k env.startTime env.endTimeExcept e), ⟨g, i, false⟩) := by
  unfold process
  rw [hb, hk, hu, htr]
  simp

/-- C1 witness: the failing-fetch fixture run. -/
theorem preWrite_failure_envelope_not_persisted_witness :
    process cBucket cKey cUuid envFetchFail =
      (.ok (errorEnvelope cKey "20260101_000000" "20260101_000002"
        ⟨"PDFProcessingError", "Failed to read PDF from S3: An error occurred (NoSuchKey)"⟩),
       ⟨true, false, false⟩) :=
  preWrite_failure_envelope_not_persisted cBucket cKey cUuid envFetchFail
    ⟨"PDFProcessingError", "Failed to read PDF from S3: An error occurred (NoSuchKey)"⟩
    true false rfl rfl rfl rfl

/-- C1 counterexample: in a run whose fetch raises, the FAILED envelope is
produced but the put operation is **not** performed before the run ends. -/
theorem fetch_failure_put_not_performed_cex :
    (process cBucket cKey cUuid envFetchFail).fst =
      .ok (errorEnvelope cKey "20260101_000000" "20260101_000002"
        ⟨"PDFProcessingError", "Failed to read PDF from S3: An error occurred (NoSuchKey)"⟩) ∧
    (errorEnvelope cKey "20260101_000000" "20260101_000002"
        ⟨"PDFProcessingError", "Failed to read PDF from S3: An error occurred (NoSuchKey)"⟩).lookup
        "status" = some (.str "FAILED") ∧
    (process cBucket cKey cUuid envFetchFail).snd.putCalled = false :=
  ⟨rfl, rfl, rfl⟩

/-- C2 (amended): When every earlier stage succeeds and the Result Writer's
`put_object` fails, the broad `except Exception` **does** catch it: `process`
returns a FAILED envelope (the `ClientError` wrapped as `PDFProcessingError`
with the `S3 write error:` message, any other exception kept verbatim) and
does not propagate the exception. -/
theorem process_write_failure_caught (b k u : Option String) (env : Env)
    (d : List Nat) (imgs : List String) (r : JValue) (pe : PyExn)
    (hb : truthy b = true) (hk : truthy k = true) (hu : truthy u = true)
    (hget : env.getRes = .ok d) (hd : d ≠ [])
    (hrender : env.renderRes = .ok imgs) (himgs : imgs ≠ [])
    (hinv : env.invokeRes = .ok r) (hput : env.putRes = .error pe) :
    process b k u env =
      (.ok (errorEnvelope k env.startTime env.endTimeExcept
        (if pe.ty == "ClientError" then
          ⟨"PDFProcessingError", "S3 write error: " ++ pe.msg⟩
         else pe)),
       ⟨true, true, true⟩) := by
  unfold process tryBody read_pdf_from_s3 pdf_to_base64_images prepare_bedrock_payload
    write_results_to_s3
  rw [hb, hk, hu, hget, hrender, hinv, hput]
  rcases d with _ | ⟨x, xs⟩
  · exact absurd rfl hd
  rcases imgs with _ | ⟨y, ys⟩
  · exact absurd rfl himgs
  cases hc : pe.ty == "ClientError" <;> simp [hc]

/-- C2 witness: the failing-write fixture run. -/
theorem process_write_failure_caught_witness :
    process cBucket cKey cUuid envWriteFail =
      (.ok (errorEnvelope cKey "t0" "t2"
        (if ("ClientError" : String) == "ClientError" then
          ⟨"PDFProcessingError", "S3 write error: " ++ "AccessDenied"⟩
         else ⟨"ClientError", "AccessDenied"⟩)),
       ⟨true, true, true⟩) :=
  process_write_failure_caught cBucket cKey cUuid envWriteFail [37] ["img"]
    (.obj [("content", .str "summary")]) ⟨"ClientError", "AccessDenied"⟩
    rfl rfl rfl rfl (by decide) rfl (by decide) rfl rfl

/-- C2 counterexample: with all stages succeeding and the write raising a
`ClientError`, `process` returns (`.ok`) a second, FAILED envelope instead of
propagating the exception to its caller. -/
theorem write_failure_not_propagated_cex :
    (process cBucket cKey cUuid envWriteFail).fst =
      .ok (errorEnvelope cKey "t0" "t2"
        ⟨"PDFProcessingError", "S3 write error: AccessDenied"⟩) ∧
    (errorEnvelope cKey "t0" "t2"
        ⟨"PDFProcessingError", "S3 write error: AccessDenied"⟩).lookup "status"
      = some (.str "FAILED") :=
  ⟨rfl, rfl⟩

/-- Characterization of the exception captured by a pre-write failure: every
wrapped stage error carries class `PDFProcessingError` and a non-empty
message; only a non-`ClientError` fetch exception or an invocation exception
passes through with its own class. -/
theorem tryBody_error_kind_char (b k u : Option String) (env : Env)
    (e : PyExn) (g i : Bool)
    (hb : truthy b = true) (hk : truthy k = true) (hu : truthy u = true)
    (htr : tryBody b k u env = (.error e, ⟨g, i, false⟩)) :
    (i = false → (e.ty = "PDFProcessingError" ∧ e.msg ≠ "") ∨
      (env.getRes = .error e ∧ ¬ e.ty = "ClientError")) ∧
    (i = true → env.invokeRes = .error e) := by
  unfold tryBody read_pdf_from_s3 pdf_to_base64_images prepare_bedrock_payload
    write_results_to_s3 at htr
  rw [hb, hk, hu] at htr
  cases hget : env.getRes with
  | error e0 =>
    rw [hget] at htr
    cases hc : e0.ty == "ClientError" <;> simp [hc] at htr
    · obtain ⟨he, hg, hi⟩ := htr
      subst he
      subst hi
      refine ⟨fun _ => .inr ⟨rfl, fun hcl => ?_⟩, fun hcon => by simp at hcon⟩
      rw [hcl] at hc
      simp at hc
    · obtain ⟨he, hg, hi⟩ := htr
      subst hi
      refine ⟨fun _ => .inl ⟨?_, ?_⟩, fun hcon => by simp at hcon⟩
      · rw [← he]
      · rw [← he]
        exact append_left_ne_empty _ _ (by decide)
  | ok d =>
    rw [hget] at htr
    rcases d with _ | ⟨x, xs⟩
    · simp at htr
      obtain ⟨he, hg, hi⟩ := htr
      subst hi
      refine ⟨fun _ => .inl ⟨?_, ?_⟩, fun hcon => by simp at hcon⟩
      · rw [← he]
      · rw [← he]
        decide
    · cases hrend : env.renderRes with
      | error e1 =>
        rw [hrend] at htr
        simp at htr
        obtain ⟨he, hg, hi⟩ := htr
        subst hi
        refine ⟨fun _ => .inl ⟨?_, ?_⟩, fun hcon => by simp at hcon⟩
        · rw [← he]
        · rw [← he]
          exact append_left_ne_empty _ _ (by decide)
      | ok imgs =>
        rw [hrend] at htr
        rcases imgs with _ | ⟨y, ys⟩
        · simp at htr
          obtain ⟨he, hg, hi⟩ := htr
          subst hi
          refine ⟨fun _ => .inl ⟨?_, ?_⟩, fun hcon => by simp at hcon⟩
          · rw [← he]
          · rw [← he]
            decide
        · cases hinv : env.invokeRes with
          | error e2 =>
            rw [hinv] at htr
            simp at htr
            obtain ⟨he, hg, hi⟩ := htr
            subst he
            subst hi
            exact ⟨fun hcon => by simp at hcon, fun _ => rfl⟩
          | ok r =>
            rw [hinv] at htr
            cases hput : env.putRes with
            | ok v =>
              rw [hput] at htr
              simp at htr
            | error pe =>
              rw [hput] at htr
              cases hc : pe.ty == "ClientError" <;> simp [hc] at htr

/-- C3 (amended): Any run failing before the write step produces a FAILED
envelope whose `error` is the exception's message and whose `error_type` is
the exception's Python class name — `PDFProcessingError` (with a non-empty
message) for every wrapped stage failure, the raw class only for an unwrapped
non-`ClientError` fetch exception or an invocation failure — never the
spec's stage names `FetchError` / `RasterizationError` / `RequestBuildError`
/ `InvocationError`; `analysis_results` is absent from the envelope. -/
theorem process_failure_envelope_fields (b k u : Option String) (env : Env)
    (e : PyExn) (g i : Bool)
    (hb : truthy b = true) (hk : truthy k = true) (hu : truthy u = true)
    (htr : tryBody b k u env = (.error e, ⟨g, i, false⟩)) :
    (process b k u env).fst = .ok (errorEnvelope k env.startTime env.endTimeExcept e) ∧
    (errorEnvelope k env.startTime env.endTimeExcept e).lookup "status" = some (.str "FAILED") ∧
    (errorEnvelope k env.startTime env.endTimeExcept e).lookup "error" = some (.str e.msg) ∧
    (errorEnvelope k env.startTime env.endTimeExcept e).lookup "error_type" = some (.str e.ty) ∧
    (errorEnvelope k env.startTime env.endTimeExcept e).lookup "analysis_results" = none ∧
    (i = false → (e.ty = "PDFProcessingError" ∧ e.msg ≠ "") ∨
      (env.getRes = .error e ∧ ¬ e.ty = "ClientError")) ∧
    (i = true → env.invokeRes = .error e) := by
  refine ⟨?_, rfl, rfl, rfl, rfl,
    (tryBody_error_kind_char b k u env e g i hb hk hu htr).1,
    (tryBody_error_kind_char b k u env e g i hb hk hu htr).2⟩
  unfold process
  rw [hb, hk, hu, htr]
  simp

/-- C3 witness: the failing-fetch fixture run. -/
theorem process_failure_envelope_fields_witness :
    (process cBucket cKey cUuid envFetchFail).fst =
      .ok (errorEnvelope cKey "20260101_000000" "20260101_000002"
        ⟨"PDFProcessingError", "Failed to read PDF from S3: An error occurred (NoSuchKey)"⟩) ∧
    (errorEnvelope cKey "20260101_000000" "20260101_000002"
        ⟨"PDFProcessingError",
         "Failed to read PDF from S3: An error occurred (NoSuchKey)"⟩).lookup "status"
      = some (.str "FAILED") ∧
    (errorEnvelope cKey "20260101_000000" "20260101_000002"
        ⟨"PDFProcessingError",
         "Failed to read PDF from S3: An error occurred (NoSuchKey)"⟩).lookup "error"
      = some (.str "Failed to read PDF from S3: An error occurred (NoSuchKey)") ∧
    (errorEnvelope cKey "20260101_000000" "20260101_000002"
        ⟨"PDFProcessingError",
         "Failed to read PDF from S3: An error occurred (NoSuchKey)"⟩).lookup "error_type"
      = some (.str "PDFProcessingError") ∧
    (errorEnvelope cKey "20260101_000000" "20260101_000002"
        ⟨"PDFProcessingError",
         "Failed to read PDF from S3: An error occurred (NoSuchKey)"⟩).lookup "analysis_results"
      = none ∧
    (false = false →
      (("PDFProcessingError" : String) = "PDFProcessingError" ∧
        ("Failed to read PDF from S3: An error occurred (NoSuchKey)" : String) ≠ "") ∨
      (envFetchFail.getRes =
          .error ⟨"PDFProcessingError", "Failed to read PDF from S3: An error occurred (NoSuchKey)"⟩ ∧
        ¬ ("PDFProcessingError" : String) = "ClientError")) ∧
    (false = true → envFetchFail.invokeRes =
      .error ⟨"PDFProcessingError", "Failed to read PDF from S3: An error occurred (NoSuchKey)"⟩) :=
  process_failure_envelope_fields cBucket cKey cUuid envFetchFail
    ⟨"PDFProcessingError", "Failed to read PDF from S3: An error occurred (NoSuchKey)"⟩
    true false rfl rfl rfl rfl

/-- C3 counterexample: a zero-page run fails in request building, yet the
envelope's `error_type` is `PDFProcessingError`, not `RequestBuildError`. -/
theorem error_type_not_stage_name_cex :
    (process cBucket cKey cUuid envZeroPages).fst =
      .ok (errorEnvelope cKey "t0" "t2"
        ⟨"PDFProcessingError",
         "Failed to prepare PDF payload: No valid Base64 images found in PDF"⟩) ∧
    (errorEnvelope cKey "t0" "t2"
        ⟨"PDFProcessingError",
         "Failed to prepare PDF payload: No valid Base64 images found in PDF"⟩).lookup "error_type"
      = some (.str "PDFProcessingError") ∧
    ("PDFProcessingError" : String) ≠ "RequestBuildError" :=
  ⟨rfl, rfl, by decide⟩

end BedrockUploader
